import Mathlib

/-!
Shallow embedding of the earthquake-visualizer client:
the `EarthquakeVisualizer` page component (filter effect, summary cards,
`significantEarthquakes`, `getMagnitudeColor`, `getMagnitudeLabel`,
`fetchEarthquakeData`) and the `EarthquakeMap` component (marker effect:
coordinate skip check, magnitude classification, layer reconciliation).

JavaScript numbers occurring in the feed data are modelled by `JSNum`:
a finite rational value, one of the two infinities, or NaN.  The JS
operators the code applies to them are transliterated on this type
(comparisons with NaN are false, arithmetic with NaN yields NaN).
Wall-clock time (`Date.now()`, `eq.properties.time`) is modelled as an
integer count of epoch milliseconds.
-/

namespace EarthquakeViz

/-- A JavaScript number as it can occur in the feed: a finite rational,
an infinity, or NaN (also standing for an absent/`undefined` magnitude,
which behaves like NaN in every operation this code performs on it). -/
inductive JSNum where
  | nan
  | posInf
  | negInf
  | num (q : ℚ)
deriving DecidableEq

/-- JS `a >= b`: false whenever either operand is NaN. -/
def jsGe : JSNum → JSNum → Bool
  | .nan, _ => false
  | _, .nan => false
  | .posInf, _ => true
  | _, .posInf => false
  | _, .negInf => true
  | .negInf, _ => false
  | .num a, .num b => decide (b ≤ a)

/-- JS `a < b`: false whenever either operand is NaN. -/
def jsLt : JSNum → JSNum → Bool
  | .nan, _ => false
  | _, .nan => false
  | .negInf, .negInf => false
  | .negInf, _ => true
  | _, .negInf => false
  | .posInf, _ => false
  | _, .posInf => true
  | .num a, .num b => decide (a < b)

/-- JS truthiness test on a number: `!x` is true exactly for `0` and `NaN`
(the code only ever applies it to numbers, so `undefined`/`null` do not arise). -/
def jsFalsy : JSNum → Bool
  | .nan => true
  | .num q => decide (q = 0)
  | _ => false

/-- JS `isNaN(x)` for a number argument. -/
def jsIsNaN : JSNum → Bool
  | .nan => true
  | _ => false

/-- JS `a + b` on numbers: NaN propagates, `Infinity + -Infinity` is NaN. -/
def jsAdd : JSNum → JSNum → JSNum
  | .nan, _ => .nan
  | _, .nan => .nan
  | .posInf, .negInf => .nan
  | .negInf, .posInf => .nan
  | .posInf, _ => .posInf
  | _, .posInf => .posInf
  | .negInf, _ => .negInf
  | _, .negInf => .negInf
  | .num a, .num b => .num (a + b)

/-- JS `Math.max(a, b)`: NaN if either argument is NaN. -/
def jsMax : JSNum → JSNum → JSNum
  | .nan, _ => .nan
  | _, .nan => .nan
  | .posInf, _ => .posInf
  | _, .posInf => .posInf
  | .negInf, b => b
  | a, .negInf => a
  | .num a, .num b => .num (max a b)

/-- JS `a / n` for a number `a` and a nonnegative integer divisor `n`
(the list length in the mean computation); division by zero follows JS. -/
def jsDivNat : JSNum → ℕ → JSNum
  | .nan, _ => .nan
  | .posInf, _ => .posInf
  | .negInf, _ => .negInf
  | .num q, 0 => if 0 < q then .posInf else if q < 0 then .negInf else .nan
  | .num q, (n + 1) => .num (q / (n + 1))

/-- The fields of `Earthquake.properties` that the core logic reads
(`mag`, `place`, `time`); the remaining feed properties are carried
nowhere in the computations and are omitted. -/
structure EventProperties where
  mag : JSNum
  place : String
  time : ℤ
deriving DecidableEq

/-- GeoJSON geometry: `coordinates` is `[longitude, latitude, depth]`. -/
structure Geometry where
  coordinates : JSNum × JSNum × JSNum
deriving DecidableEq

/-- One feed record (`features` entry). -/
structure Earthquake where
  id : String
  properties : EventProperties
  geometry : Geometry
deriving DecidableEq

/-- The longitude component, per the destructuring `const [lng, lat] = coordinates`. -/
def lngOf (e : Earthquake) : JSNum := e.geometry.coordinates.1

/-- The latitude component, per the destructuring `const [lng, lat] = coordinates`. -/
def latOf (e : Earthquake) : JSNum := e.geometry.coordinates.2.1

/-- The `timeFilter` select state: `"all" | "1h" | "6h" | "12h"`. -/
inductive TimeFilter where
  | all
  | h1
  | h6
  | h12
deriving DecidableEq

/-- The threshold lookup `{ "1h": 60*60*1000, "6h": ..., "12h": ... }[timeFilter] || 0`. -/
def timeThreshold : TimeFilter → ℤ
  | .h1 => 60 * 60 * 1000
  | .h6 => 6 * 60 * 60 * 1000
  | .h12 => 12 * 60 * 60 * 1000
  | .all => 0

/-- The magnitude stage of the filter effect:
`if (magnitudeFilter[0] > 0) filtered = filtered.filter((eq) => eq.properties.mag >= magnitudeFilter[0])`. -/
def magnitudeFiltered (magnitudeFilter : ℚ) (earthquakes : List Earthquake) : List Earthquake :=
  if 0 < magnitudeFilter then
    earthquakes.filter fun e => jsGe e.properties.mag (JSNum.num magnitudeFilter)
  else earthquakes

/-- The time stage of the filter effect:
`if (timeFilter !== "all") filtered = filtered.filter((eq) => now - eq.properties.time <= timeThreshold)`,
with `now` captured once by `Date.now()`. -/
def timeFiltered (now : ℤ) (timeFilter : TimeFilter) (l : List Earthquake) : List Earthquake :=
  if timeFilter ≠ TimeFilter.all then
    l.filter fun e => decide (now - e.properties.time ≤ timeThreshold timeFilter)
  else l

/-- The whole filter effect body: magnitude stage, then time stage,
producing the `filteredEarthquakes` state. -/
def filterEffect (now : ℤ) (magnitudeFilter : ℚ) (timeFilter : TimeFilter)
    (earthquakes : List Earthquake) : List Earthquake :=
  timeFiltered now timeFilter (magnitudeFiltered magnitudeFilter earthquakes)

/-- Test fixture: an earthquake record built from its components. -/
def mkQuake (id : String) (mag : JSNum) (time : ℤ) (lng lat depth : JSNum) : Earthquake :=
  ⟨id, ⟨mag, "test place", time⟩, ⟨(lng, lat, depth)⟩⟩

/-- Fill colour and radius chosen for a marker in the `EarthquakeMap` effect. -/
structure MarkerStyle where
  color : String
  radius : ℕ
deriving DecidableEq

/-- The marker-effect classification: `color`/`radius` start at green/5 and the
`if (magnitude >= 7) ... else if ...` chain overrides them, first match winning. -/
def markerStyle (magnitude : JSNum) : MarkerStyle :=
  if jsGe magnitude (JSNum.num 7) then ⟨"#dc2626", 15⟩
  else if jsGe magnitude (JSNum.num 5) then ⟨"#f97316", 12⟩
  else if jsGe magnitude (JSNum.num 3) then ⟨"#eab308", 9⟩
  else if jsGe magnitude (JSNum.num 1) then ⟨"#3b82f6", 7⟩
  else ⟨"#22c55e", 5⟩

/-- The badge colour helper of the page component. -/
def getMagnitudeColor (magnitude : JSNum) : String :=
  if jsGe magnitude (JSNum.num 7) then "bg-destructive"
  else if jsGe magnitude (JSNum.num 5) then "bg-orange-500"
  else if jsGe magnitude (JSNum.num 3) then "bg-yellow-500"
  else if jsGe magnitude (JSNum.num 1) then "bg-blue-500"
  else "bg-green-500"

/-- The tier-label helper of the page component. -/
def getMagnitudeLabel (magnitude : JSNum) : String :=
  if jsGe magnitude (JSNum.num 7) then "Major"
  else if jsGe magnitude (JSNum.num 5) then "Moderate"
  else if jsGe magnitude (JSNum.num 3) then "Light"
  else if jsGe magnitude (JSNum.num 1) then "Minor"
  else "Micro"

/-- The marker-effect skip condition
`if (!lat || !lng || isNaN(lat) || isNaN(lng)) return`. -/
def skipMarker (e : Earthquake) : Bool :=
  jsFalsy (latOf e) || jsFalsy (lngOf e) || jsIsNaN (latOf e) || jsIsNaN (lngOf e)

/-- A circle marker as handed to the map library: position plus style
(the popup carries no further information used by any claim). -/
structure Marker where
  lat : JSNum
  lng : JSNum
  style : MarkerStyle
deriving DecidableEq

/-- The marker built by `L.circleMarker([lat, lng], {radius, fillColor, ...})`. -/
def mkMarker (e : Earthquake) : Marker :=
  ⟨latOf e, lngOf e, markerStyle e.properties.mag⟩

/-- The marker descriptors produced by one run of the marker effect's
`earthquakes.forEach` loop: events hitting the skip condition contribute
nothing, every other event contributes one marker, in feed order. -/
def projectMarkers (earthquakes : List Earthquake) : List Marker :=
  (earthquakes.filter fun e => !skipMarker e).map mkMarker

/-- `markersRef.current.clearLayers()`: the layer group loses every marker. -/
def clearLayers (_layer : List Marker) : List Marker := []

/-- `markersRef.current.addLayer(marker)`: the layer group gains one marker. -/
def addLayer (layer : List Marker) (m : Marker) : List Marker := layer ++ [m]

/-- The layer synchronization performed by the marker effect: clear the
previous layer, then add one marker per descriptor, in descriptor order. -/
def reconcile (prev : List Marker) (descriptors : List Marker) : List Marker :=
  descriptors.foldl addLayer (clearLayers prev)

/-- The whole marker effect body on the layer state. -/
def markerEffect (prev : List Marker) (earthquakes : List Earthquake) : List Marker :=
  reconcile prev (projectMarkers earthquakes)

/-- The component state touched by `fetchEarthquakeData`. -/
structure AppState where
  earthquakes : List Earthquake
  loading : Bool
  error : Option String
  lastUpdated : Option ℤ
deriving DecidableEq

/-- How one fetch resolves: parsed features on success, or one of the
failure modes the `try`/`catch` handles (a non-ok HTTP status makes the
code throw, a malformed body makes `response.json()` reject, a network
failure makes `fetch` itself reject — all land in the same `catch`). -/
inductive FetchOutcome where
  | success (features : List Earthquake)
  | httpError (status : ℕ)
  | parseError
  | networkError
deriving DecidableEq

/-- The message `setError` receives in the `catch` block. -/
def fetchErrorMessage : String := "Failed to load earthquake data. Please try again later."

/-- One run of `fetchEarthquakeData` over the component state, given how the
network interaction resolves and the wall clock `now` at resolution time:
`setLoading(true); setError(null)`, then either
`setEarthquakes(data.features); setLastUpdated(new Date())` or the `catch`
branch `setError(...)`, and `finally setLoading(false)`. -/
def fetchEarthquakeData (s : AppState) (outcome : FetchOutcome) (now : ℤ) : AppState :=
  let s1 : AppState := { s with loading := true, error := none }
  let s2 : AppState :=
    match outcome with
    | .success features => { s1 with earthquakes := features, lastUpdated := some now }
    | .httpError _ => { s1 with error := some fetchErrorMessage }
    | .parseError => { s1 with error := some fetchErrorMessage }
    | .networkError => { s1 with error := some fetchErrorMessage }
  { s2 with loading := false }

/-- The Total Earthquakes card: `filteredEarthquakes.length`. -/
def filteredCount (l : List Earthquake) : ℕ := l.length

/-- The Significant Events card:
`filteredEarthquakes.filter((eq) => eq.properties.mag >= 2.5).length`. -/
def significantCount (l : List Earthquake) : ℕ :=
  (l.filter fun e => jsGe e.properties.mag (JSNum.num 2.5)).length

/-- `Math.max(...ms)` on a spread list of JS numbers: the two-argument
`Math.max` folded from its identity `-Infinity`. -/
def jsMaxList (ms : List JSNum) : JSNum := ms.foldl jsMax JSNum.negInf

/-- The Strongest Event card:
`length > 0 ? Math.max(...map((eq) => eq.properties.mag)) : "0.0"`
(the display rounding `.toFixed(1)` is presentation and is not modelled). -/
def maxMagnitude (l : List Earthquake) : JSNum :=
  if 0 < l.length then jsMaxList (l.map fun e => e.properties.mag) else JSNum.num 0

/-- `filteredEarthquakes.reduce((sum, eq) => sum + eq.properties.mag, 0)`. -/
def magnitudeSum (l : List Earthquake) : JSNum :=
  l.foldl (fun s e => jsAdd s e.properties.mag) (JSNum.num 0)

/-- The Average Magnitude card: `length > 0 ? reduce(...) / length : "0.0"`
(again without the display rounding). -/
def meanMagnitude (l : List Earthquake) : JSNum :=
  if 0 < l.length then jsDivNat (magnitudeSum l) l.length else JSNum.num 0

/-- Spec-side helper: the rational value of a finite JS number
(the default on the non-finite cases is never relied upon). -/
def magVal : JSNum → ℚ
  | .num q => q
  | _ => 0

/-- Stable insertion: `x` is placed immediately before the first `y` that the
precedence `le` allows `x` to stay in front of; all earlier elements keep
their positions. -/
def sortInsert {α : Type} (le : α → α → Bool) (x : α) : List α → List α
  | [] => [x]
  | y :: ys => if le x y then x :: y :: ys else y :: sortInsert le x ys

/-- A stable sort by the boolean precedence `le`, modelling
`Array.prototype.sort`, which ECMAScript requires to be stable: elements the
comparator does not order strictly keep their original relative order. -/
def stableSort {α : Type} (le : α → α → Bool) (l : List α) : List α :=
  l.foldr (sortInsert le) []

/-- The sort comparator `(a, b) => b.properties.mag - a.properties.mag`:
`a` may stay in front of `b` exactly when the comparator result is not
positive, i.e. when `a.mag < b.mag` is false under JS comparison (a NaN
comparator result also counts as "not positive", which this captures, though
no NaN magnitude survives the `>= 2.5` filter that precedes the sort). -/
def significantLE (a b : Earthquake) : Bool :=
  ! jsLt a.properties.mag b.properties.mag

/-- The first two steps of the `significantEarthquakes` chain:
`filteredEarthquakes.filter((eq) => eq.properties.mag >= 2.5).sort((a, b) => b.properties.mag - a.properties.mag)`. -/
def significantSorted (filteredEarthquakes : List Earthquake) : List Earthquake :=
  stableSort significantLE
    (filteredEarthquakes.filter fun e => jsGe e.properties.mag (JSNum.num 2.5))

/-- The Recent Significant Events list: the chain above followed by `.slice(0, 5)`. -/
def significantEarthquakes (filteredEarthquakes : List Earthquake) : List Earthquake :=
  (significantSorted filteredEarthquakes).take 5

/-- Test fixture: four events with magnitudes 2.0, 6.0, 3.0, 9.0 in feed order. -/
def exampleQuakes : List Earthquake :=
  [mkQuake "a" (JSNum.num 2) 0 (JSNum.num 1) (JSNum.num 1) (JSNum.num 0),
   mkQuake "b" (JSNum.num 6) 0 (JSNum.num 1) (JSNum.num 1) (JSNum.num 0),
   mkQuake "c" (JSNum.num 3) 0 (JSNum.num 1) (JSNum.num 1) (JSNum.num 0),
   mkQuake "d" (JSNum.num 9) 0 (JSNum.num 1) (JSNum.num 1) (JSNum.num 0)]

/-- Test fixture: an event with an infinite (non-NaN, non-finite) latitude. -/
def infLatQuake : Earthquake :=
  mkQuake "inf-lat" (JSNum.num 5) 0 (JSNum.num 10) JSNum.posInf (JSNum.num 0)

/-- Test fixture: an event on the equator — latitude exactly 0, both
coordinates finite. -/
def zeroLatQuake : Earthquake :=
  mkQuake "zero-lat" (JSNum.num 5) 0 (JSNum.num 10) (JSNum.num 0) (JSNum.num 0)

/-- Claim C1: the magnitude stage keeps an event iff `minMagnitude == 0` or
`event.magnitude >= minMagnitude` under JS comparison; with `minMagnitude == 0`
the predicate is skipped entirely, so an event with absent/NaN magnitude is
kept, while any `minMagnitude > 0` excludes such an event. -/
theorem mem_magnitudeFiltered_iff (m : ℚ) (hm : 0 ≤ m) (l : List Earthquake) (e : Earthquake) :
    (e ∈ magnitudeFiltered m l ↔
      e ∈ l ∧ (m = 0 ∨ jsGe e.properties.mag (JSNum.num m) = true))
    ∧ (e.properties.mag = JSNum.nan → e ∈ l →
        e ∈ magnitudeFiltered 0 l ∧ (0 < m → e ∉ magnitudeFiltered m l)) := by
  constructor
  · unfold magnitudeFiltered
    split
    · rename_i hpos
      rw [List.mem_filter]
      constructor
      · rintro ⟨hl, hp⟩
        exact ⟨hl, Or.inr hp⟩
      · rintro ⟨hl, h0 | hp⟩
        · exact absurd h0 (by linarith)
        · exact ⟨hl, hp⟩
    · rename_i hnpos
      have hm0 : m = 0 := le_antisymm (not_lt.mp hnpos) hm
      simp [hm0]
  · intro hnan hl
    refine ⟨by simpa [magnitudeFiltered] using hl, fun hpos hmem => ?_⟩
    rw [magnitudeFiltered, if_pos hpos, List.mem_filter] at hmem
    rw [hnan] at hmem
    simp [jsGe] at hmem

/-- Claim C1, witness: a magnitude-5 event is kept by the magnitude stage
with `minMagnitude = 3`. -/
theorem mem_magnitudeFiltered_iff_witness :
    mkQuake "a" (JSNum.num 5) 0 (JSNum.num 1) (JSNum.num 1) (JSNum.num 1) ∈
      magnitudeFiltered 3 [mkQuake "a" (JSNum.num 5) 0 (JSNum.num 1) (JSNum.num 1) (JSNum.num 1)] :=
  ((mem_magnitudeFiltered_iff 3 (by norm_num)
      [mkQuake "a" (JSNum.num 5) 0 (JSNum.num 1) (JSNum.num 1) (JSNum.num 1)]
      (mkQuake "a" (JSNum.num 5) 0 (JSNum.num 1) (JSNum.num 1) (JSNum.num 1))).1).mpr
    ⟨by decide, Or.inr (by decide)⟩

/-- Claim C2: the filter effect keeps an event iff it passes the magnitude
stage AND (`timeFilter == "all"` or `now - event.time ≤ windowMillis`), the
age comparison being inclusive, with windows 3600000, 21600000 and 43200000
milliseconds for the one-, six- and twelve-hour choices. -/
theorem mem_filterEffect_iff (now : ℤ) (m : ℚ) (tf : TimeFilter)
    (l : List Earthquake) (e : Earthquake) :
    (e ∈ filterEffect now m tf l ↔
      e ∈ magnitudeFiltered m l ∧
        (tf = TimeFilter.all ∨ now - e.properties.time ≤ timeThreshold tf))
    ∧ timeThreshold TimeFilter.h1 = 3600000
    ∧ timeThreshold TimeFilter.h6 = 21600000
    ∧ timeThreshold TimeFilter.h12 = 43200000 := by
  refine ⟨?_, rfl, rfl, rfl⟩
  unfold filterEffect timeFiltered
  cases tf <;> simp [List.mem_filter, timeThreshold]

/-- Claim C4, counterexample: at magnitude 2.9 the code yields the Minor tier
(blue, radius 7), not Light (yellow, radius 9) as the claim asserts, because
the Light tier's lower bound is 3. -/
theorem markerStyle_claim_false_at_2_9 :
    markerStyle (JSNum.num 2.9) ≠ ⟨"#eab308", 9⟩
    ∧ getMagnitudeLabel (JSNum.num 2.9) ≠ "Light"
    ∧ markerStyle (JSNum.num 2.9) = ⟨"#3b82f6", 7⟩
    ∧ getMagnitudeLabel (JSNum.num 2.9) = "Minor" := by
  refine ⟨?_, ?_, ?_, ?_⟩ <;> norm_num [markerStyle, getMagnitudeLabel, jsGe] <;> decide

/-- Claim C4, amended: the classification is evaluated top-down with the
first match winning and inclusive lower bounds — magnitude ≥ 7 is Major
(red, 15px), then ≥ 5 Moderate (orange, 12px), then ≥ 3 Light (yellow, 9px),
then ≥ 1 Minor (blue, 7px), else Micro (green, 5px); in particular 7.0 is
Major/15px, 6.99 and 5.0 are Moderate/12px, 2.9 is Minor/7px (not Light/9px),
and 0.99 is Micro/5px. -/
theorem markerStyle_spec (q : ℚ) :
    (7 ≤ q → markerStyle (JSNum.num q) = ⟨"#dc2626", 15⟩
      ∧ getMagnitudeLabel (JSNum.num q) = "Major"
      ∧ getMagnitudeColor (JSNum.num q) = "bg-destructive")
    ∧ (5 ≤ q → q < 7 → markerStyle (JSNum.num q) = ⟨"#f97316", 12⟩
      ∧ getMagnitudeLabel (JSNum.num q) = "Moderate"
      ∧ getMagnitudeColor (JSNum.num q) = "bg-orange-500")
    ∧ (3 ≤ q → q < 5 → markerStyle (JSNum.num q) = ⟨"#eab308", 9⟩
      ∧ getMagnitudeLabel (JSNum.num q) = "Light"
      ∧ getMagnitudeColor (JSNum.num q) = "bg-yellow-500")
    ∧ (1 ≤ q → q < 3 → markerStyle (JSNum.num q) = ⟨"#3b82f6", 7⟩
      ∧ getMagnitudeLabel (JSNum.num q) = "Minor"
      ∧ getMagnitudeColor (JSNum.num q) = "bg-blue-500")
    ∧ (q < 1 → markerStyle (JSNum.num q) = ⟨"#22c55e", 5⟩
      ∧ getMagnitudeLabel (JSNum.num q) = "Micro"
      ∧ getMagnitudeColor (JSNum.num q) = "bg-green-500")
    ∧ markerStyle (JSNum.num 7) = ⟨"#dc2626", 15⟩
    ∧ markerStyle (JSNum.num 6.99) = ⟨"#f97316", 12⟩
    ∧ markerStyle (JSNum.num 5) = ⟨"#f97316", 12⟩
    ∧ markerStyle (JSNum.num 2.9) = ⟨"#3b82f6", 7⟩
    ∧ markerStyle (JSNum.num 0.99) = ⟨"#22c55e", 5⟩ := by
  refine ⟨fun h => ?_, fun h h7 => ?_, fun h h5 => ?_, fun h h3 => ?_, fun h => ?_,
    by norm_num [markerStyle, jsGe], by norm_num [markerStyle, jsGe],
    by norm_num [markerStyle, jsGe], by norm_num [markerStyle, jsGe],
    by norm_num [markerStyle, jsGe]⟩ <;>
    simp only [markerStyle, getMagnitudeLabel, getMagnitudeColor, jsGe] <;>
    split_ifs <;>
    simp only [decide_eq_true_eq, not_le] at * <;>
    first
    | exact ⟨rfl, rfl, rfl⟩
    | (exfalso; linarith)
    | simp

/-- Claim C4, witness: the amended tier bounds hold at the concrete magnitude
2.9, which falls in the Minor tier. -/
theorem markerStyle_spec_witness :
    markerStyle (JSNum.num 2.9) = ⟨"#3b82f6", 7⟩
    ∧ getMagnitudeLabel (JSNum.num 2.9) = "Minor"
    ∧ getMagnitudeColor (JSNum.num 2.9) = "bg-blue-500" :=
  (markerStyle_spec 2.9).2.2.2.1 (by norm_num) (by norm_num)

/-- Claim C7: reconciliation first empties the previous marker layer and then
adds exactly one marker per descriptor in descriptor order, so the resulting
layer is exactly the descriptor sequence, whatever the previous layer held. -/
theorem reconcile_spec (prev descriptors : List Marker) :
    reconcile prev descriptors = descriptors ∧ clearLayers prev = [] := by
  have h : ∀ (ds acc : List Marker), ds.foldl addLayer acc = acc ++ ds := by
    intro ds
    induction ds with
    | nil => simp
    | cons d ds ih => intro acc; simp [addLayer, ih]
  exact ⟨by simp [reconcile, clearLayers, h], rfl⟩

/-- Claim C8: every failing outcome (non-success HTTP status, malformed body,
network failure) leaves the previously loaded events and the last-successful
timestamp untouched and surfaces the human-readable message as a state value;
only a successful fetch sets the timestamp (and clears the error). -/
theorem fetchEarthquakeData_spec (s : AppState) (now : ℤ) :
    (∀ status : ℕ,
      (fetchEarthquakeData s (FetchOutcome.httpError status) now).earthquakes = s.earthquakes
      ∧ (fetchEarthquakeData s (FetchOutcome.httpError status) now).lastUpdated = s.lastUpdated
      ∧ (fetchEarthquakeData s (FetchOutcome.httpError status) now).error = some fetchErrorMessage)
    ∧ ((fetchEarthquakeData s FetchOutcome.parseError now).earthquakes = s.earthquakes
      ∧ (fetchEarthquakeData s FetchOutcome.parseError now).lastUpdated = s.lastUpdated
      ∧ (fetchEarthquakeData s FetchOutcome.parseError now).error = some fetchErrorMessage)
    ∧ ((fetchEarthquakeData s FetchOutcome.networkError now).earthquakes = s.earthquakes
      ∧ (fetchEarthquakeData s FetchOutcome.networkError now).lastUpdated = s.lastUpdated
      ∧ (fetchEarthquakeData s FetchOutcome.networkError now).error = some fetchErrorMessage)
    ∧ (∀ features,
      (fetchEarthquakeData s (FetchOutcome.success features) now).lastUpdated = some now
      ∧ (fetchEarthquakeData s (FetchOutcome.success features) now).error = none) :=
  ⟨fun _ => ⟨rfl, rfl, rfl⟩, ⟨rfl, rfl, rfl⟩, ⟨rfl, rfl, rfl⟩, fun _ => ⟨rfl, rfl⟩⟩

/-- Folding JS `Math.max` over finite numbers computes the rational fold of `max`. -/
theorem foldl_jsMax_num (qs : List ℚ) (a : ℚ) :
    (qs.map JSNum.num).foldl jsMax (JSNum.num a) = JSNum.num (qs.foldl max a) := by
  induction qs generalizing a with
  | nil => rfl
  | cons q qs ih =>
    simp only [List.map_cons, List.foldl_cons, jsMax]
    exact ih (max a q)

/-- The rational fold of `max` is attained and is an upper bound. -/
theorem foldl_max_spec (qs : List ℚ) (a : ℚ) :
    (qs.foldl max a = a ∨ qs.foldl max a ∈ qs)
    ∧ a ≤ qs.foldl max a
    ∧ ∀ q ∈ qs, q ≤ qs.foldl max a := by
  induction qs generalizing a with
  | nil => exact ⟨Or.inl rfl, le_refl a, by simp⟩
  | cons q qs ih =>
    obtain ⟨hmem, hle, hub⟩ := ih (max a q)
    rw [List.foldl_cons]
    refine ⟨?_, le_trans (le_max_left a q) hle, ?_⟩
    · rcases hmem with h | h
      · rcases max_choice a q with hc | hc
        · exact Or.inl (h.trans hc)
        · refine Or.inr ?_
          rw [h, hc]
          exact List.mem_cons_self q qs
      · exact Or.inr (List.mem_cons_of_mem q h)
    · intro x hx
      rcases List.mem_cons.mp hx with rfl | hx
      · exact le_trans (le_max_right a x) hle
      · exact hub x hx

/-- Folding the JS addition of the magnitudes over events whose magnitude is a
finite number computes the rational sum of the magnitude values. -/
theorem foldl_jsAdd_events : ∀ (l : List Earthquake) (a : ℚ),
    (∀ e ∈ l, ∃ q : ℚ, e.properties.mag = JSNum.num q) →
    l.foldl (fun s e => jsAdd s e.properties.mag) (JSNum.num a)
      = JSNum.num (a + (l.map fun e => magVal e.properties.mag).sum)
  | [], a, _ => by simp
  | x :: xs, a, h => by
    obtain ⟨q, hq⟩ := h x (List.mem_cons_self _ _)
    have hrec := foldl_jsAdd_events xs (a + q) fun e he => h e (List.mem_cons_of_mem _ he)
    have hmv : magVal (JSNum.num q) = q := rfl
    simp only [List.foldl_cons, List.map_cons, List.sum_cons, hq, hmv]
    rw [show jsAdd (JSNum.num a) (JSNum.num q) = JSNum.num (a + q) from rfl, hrec]
    congr 1
    ring

/-- On a nonempty list of events with finite magnitudes, the Average Magnitude
computation yields the rational sum of the magnitudes divided by the length. -/
theorem meanMagnitude_num (l : List Earthquake) (hl : l ≠ [])
    (h : ∀ e ∈ l, ∃ q : ℚ, e.properties.mag = JSNum.num q) :
    meanMagnitude l
      = JSNum.num ((l.map fun e => magVal e.properties.mag).sum / l.length) := by
  obtain ⟨x, l', rfl⟩ := List.exists_cons_of_ne_nil hl
  rw [meanMagnitude, if_pos (by simp), magnitudeSum, foldl_jsAdd_events _ 0 h, zero_add]
  simp only [jsDivNat, List.length_cons]
  congr 1
  push_cast
  ring

/-- Claim C5: over the filtered set, the count card shows the length, max and
mean are 0 on the empty set, the max is an attained upper bound of the
magnitudes, the mean is the magnitude sum divided by the count, the
significant count counts magnitudes at least 2.5, and the mean examples
{5.0} ↦ 5.0 and {3.0, 5.0} ↦ 4.0 hold. -/
theorem summary_spec (l : List Earthquake)
    (h : ∀ e ∈ l, ∃ q : ℚ, e.properties.mag = JSNum.num q) :
    filteredCount l = l.length
    ∧ (l = [] → maxMagnitude l = JSNum.num 0 ∧ meanMagnitude l = JSNum.num 0)
    ∧ (l ≠ [] → ∃ M : ℚ, maxMagnitude l = JSNum.num M
        ∧ (∃ e ∈ l, e.properties.mag = JSNum.num M)
        ∧ ∀ e ∈ l, ∀ q : ℚ, e.properties.mag = JSNum.num q → q ≤ M)
    ∧ (l ≠ [] → meanMagnitude l =
        JSNum.num ((l.map fun e => magVal e.properties.mag).sum / l.length))
    ∧ significantCount l =
        (l.filter fun e => decide ((2.5 : ℚ) ≤ magVal e.properties.mag)).length
    ∧ meanMagnitude [mkQuake "m5" (JSNum.num 5) 0 (JSNum.num 1) (JSNum.num 1) (JSNum.num 0)]
        = JSNum.num 5
    ∧ meanMagnitude [mkQuake "m3" (JSNum.num 3) 0 (JSNum.num 1) (JSNum.num 1) (JSNum.num 0),
        mkQuake "m5" (JSNum.num 5) 0 (JSNum.num 1) (JSNum.num 1) (JSNum.num 0)]
        = JSNum.num 4 := by
  have hmap : l.map (fun e => e.properties.mag)
      = (l.map fun e => magVal e.properties.mag).map JSNum.num := by
    rw [List.map_map]
    apply List.map_congr_left
    intro e he
    obtain ⟨q, hq⟩ := h e he
    simp [hq, magVal]
  refine ⟨rfl, ?_, ?_, ?_, ?_, ?_, ?_⟩
  · rintro rfl
    exact ⟨rfl, rfl⟩
  · intro hl
    obtain ⟨m, ms', hcons⟩ :
        ∃ m ms', (l.map fun e => magVal e.properties.mag) = m :: ms' := by
      cases l with
      | nil => exact absurd rfl hl
      | cons x xs => exact ⟨_, _, rfl⟩
    rw [maxMagnitude, if_pos (List.length_pos.mpr hl), jsMaxList, hmap, hcons,
      List.map_cons, List.foldl_cons]
    have hstep : jsMax JSNum.negInf (JSNum.num m) = JSNum.num m := rfl
    rw [hstep, foldl_jsMax_num]
    obtain ⟨hat, hge, hub⟩ := foldl_max_spec ms' m
    refine ⟨ms'.foldl max m, rfl, ?_, ?_⟩
    · have hmem : ms'.foldl max m ∈ (l.map fun e => magVal e.properties.mag) := by
        rw [hcons]
        rcases hat with hat | hat
        · rw [hat]
          exact List.mem_cons_self m ms'
        · exact List.mem_cons_of_mem m hat
      obtain ⟨e, he, hev⟩ := List.mem_map.mp hmem
      obtain ⟨q, hq⟩ := h e he
      refine ⟨e, he, ?_⟩
      rw [hq] at hev ⊢
      simp only [magVal] at hev
      rw [hev]
    · intro e he q hq
      have hqv : q ∈ (l.map fun e => magVal e.properties.mag) := by
        apply List.mem_map.mpr
        exact ⟨e, he, by simp [hq, magVal]⟩
      rw [hcons] at hqv
      rcases List.mem_cons.mp hqv with rfl | hqv
      · exact hge
      · exact hub q hqv
  · intro hl
    exact meanMagnitude_num l hl h
  · rw [significantCount]
    congr 1
    apply List.filter_congr
    intro e he
    obtain ⟨q, hq⟩ := h e he
    simp [hq, jsGe, magVal]
  · rw [meanMagnitude_num _ (by simp) ?_]
    · norm_num [mkQuake, magVal]
    · intro e he
      rcases List.mem_cons.mp he with rfl | he
      · exact ⟨5, rfl⟩
      · cases he
  · rw [meanMagnitude_num _ (by simp) ?_]
    · norm_num [mkQuake, magVal]
    · intro e he
      rcases List.mem_cons.mp he with rfl | he
      · exact ⟨3, rfl⟩
      · rcases List.mem_cons.mp he with rfl | he
        · exact ⟨5, rfl⟩
        · cases he

/-- Claim C5, witness: on the two-event list with magnitudes 3.0 and 5.0 the
mean card shows 4.0. -/
theorem summary_spec_witness :
    meanMagnitude [mkQuake "m3" (JSNum.num 3) 0 (JSNum.num 1) (JSNum.num 1) (JSNum.num 0),
        mkQuake "m5" (JSNum.num 5) 0 (JSNum.num 1) (JSNum.num 1) (JSNum.num 0)]
      = JSNum.num 4 :=
  (summary_spec [mkQuake "m3" (JSNum.num 3) 0 (JSNum.num 1) (JSNum.num 1) (JSNum.num 0),
      mkQuake "m5" (JSNum.num 5) 0 (JSNum.num 1) (JSNum.num 1) (JSNum.num 0)]
    (by
      intro e he
      rcases List.mem_cons.mp he with rfl | he
      · exact ⟨3, rfl⟩
      · rcases List.mem_cons.mp he with rfl | he
        · exact ⟨5, rfl⟩
        · cases he)).2.2.2.2.2.2

/-- Claim C6, code evaluated at the failing inputs: an event with an infinite
latitude passes the coordinate check and does receive a marker, while an
event with the finite latitude 0 is skipped — the check tests truthiness and
`isNaN`, not finiteness. -/
theorem skipMarker_divergence :
    skipMarker infLatQuake = false
    ∧ projectMarkers [infLatQuake] = [mkMarker infLatQuake]
    ∧ skipMarker zeroLatQuake = true
    ∧ projectMarkers [zeroLatQuake] = [] := by
  refine ⟨?_, ?_, ?_, ?_⟩ <;>
    simp [skipMarker, projectMarkers, jsFalsy, jsIsNaN, infLatQuake, zeroLatQuake,
      mkQuake, latOf, lngOf]

/-- Claim C10: an event whose latitude or longitude is exactly 0 — even with
both coordinates finite — always hits the skip condition, so removing all its
copies from the input leaves the produced marker sequence unchanged: it never
receives a marker. -/
theorem zero_coordinate_excluded (l : List Earthquake) (e : Earthquake)
    (h : latOf e = JSNum.num 0 ∨ lngOf e = JSNum.num 0) :
    skipMarker e = true
    ∧ projectMarkers l = projectMarkers (l.filter fun x => decide (x ≠ e)) := by
  have hskip : skipMarker e = true := by
    rcases h with h | h <;> simp [skipMarker, h, jsFalsy]
  refine ⟨hskip, ?_⟩
  rw [projectMarkers, projectMarkers, List.filter_filter]
  congr 1
  apply List.filter_congr
  intro x hx
  by_cases hxe : x = e
  · subst hxe
    simp [hskip]
  · simp [hxe]

/-- Claim C10, witness: the concrete equator event with finite coordinates
(latitude 0, longitude 10) is skipped and contributes no marker. -/
theorem zero_coordinate_excluded_witness :
    skipMarker zeroLatQuake = true
    ∧ projectMarkers [zeroLatQuake]
      = projectMarkers ([zeroLatQuake].filter fun x => decide (x ≠ zeroLatQuake)) :=
  zero_coordinate_excluded [zeroLatQuake] zeroLatQuake (Or.inl rfl)

/-- The magnitude stage is idempotent. -/
theorem magnitudeFiltered_idem (m : ℚ) (l : List Earthquake) :
    magnitudeFiltered m (magnitudeFiltered m l) = magnitudeFiltered m l := by
  unfold magnitudeFiltered
  split_ifs
  · simp [List.filter_filter]
  · rfl

/-- The time stage is idempotent. -/
theorem timeFiltered_idem (now : ℤ) (tf : TimeFilter) (l : List Earthquake) :
    timeFiltered now tf (timeFiltered now tf l) = timeFiltered now tf l := by
  unfold timeFiltered
  split_ifs
  · simp [List.filter_filter]
  · rfl

/-- The two filter stages commute. -/
theorem timeFiltered_magnitudeFiltered_comm (now : ℤ) (tf : TimeFilter) (m : ℚ)
    (l : List Earthquake) :
    timeFiltered now tf (magnitudeFiltered m l)
      = magnitudeFiltered m (timeFiltered now tf l) := by
  unfold timeFiltered magnitudeFiltered
  split_ifs <;> simp [List.filter_filter, Bool.and_comm]

/-- Claim C9: the filter computation is a pure function of its inputs — in
particular re-applying it with the same parameters and the same captured
clock to its own output reproduces that output, and the output is a
subsequence of the input (no event is invented or reordered). -/
theorem filterEffect_idempotent (now : ℤ) (m : ℚ) (tf : TimeFilter) (l : List Earthquake) :
    filterEffect now m tf (filterEffect now m tf l) = filterEffect now m tf l
    ∧ (filterEffect now m tf l).Sublist l := by
  constructor
  · unfold filterEffect
    rw [← timeFiltered_magnitudeFiltered_comm, magnitudeFiltered_idem, timeFiltered_idem]
  · unfold filterEffect
    have h1 : (magnitudeFiltered m l).Sublist l := by
      unfold magnitudeFiltered
      split_ifs
      · exact List.filter_sublist l
      · exact List.Sublist.refl l
    have h2 : (timeFiltered now tf (magnitudeFiltered m l)).Sublist (magnitudeFiltered m l) := by
      unfold timeFiltered
      split_ifs
      · exact List.filter_sublist _
      · exact List.Sublist.refl _
    exact h2.trans h1

/-- JS `<` is asymmetric (even through NaN, where both directions are false). -/
theorem jsLt_asymm : ∀ x y : JSNum, jsLt x y = true → jsLt y x = false := by
  intro x y
  cases x <;> cases y <;> simp [jsLt] <;> intro h <;> linarith

/-- Negated JS `<` is transitive as long as the middle value is not NaN. -/
theorem jsLt_trans_neg : ∀ x y z : JSNum, y ≠ JSNum.nan →
    jsLt x y = false → jsLt y z = false → jsLt x z = false := by
  intro x y z hy h1 h2
  cases x <;> cases y <;> cases z <;> simp_all [jsLt] <;> linarith

/-- Stable insertion permutes: the result is the inserted element plus the list. -/
theorem sortInsert_perm {α : Type} (le : α → α → Bool) (x : α) :
    ∀ l : List α, (sortInsert le x l).Perm (x :: l)
  | [] => List.Perm.refl _
  | y :: ys => by
    rw [sortInsert]
    split
    · exact List.Perm.refl _
    · exact ((sortInsert_perm le x ys).cons y).trans (List.Perm.swap x y ys)

/-- The stable sort permutes its input. -/
theorem stableSort_perm {α : Type} (le : α → α → Bool) :
    ∀ l : List α, (stableSort le l).Perm l
  | [] => List.Perm.refl _
  | x :: xs => (sortInsert_perm le x (stableSort le xs)).trans
      ((stableSort_perm le xs).cons x)

/-- Inserting an event with non-NaN magnitude into a sorted list of events
with non-NaN magnitudes keeps it sorted under the marker comparator. -/
theorem sortInsert_pairwise (x : Earthquake) :
    ∀ l : List Earthquake, x.properties.mag ≠ JSNum.nan →
    (∀ e ∈ l, e.properties.mag ≠ JSNum.nan) →
    l.Pairwise (fun a b => significantLE a b = true) →
    (sortInsert significantLE x l).Pairwise (fun a b => significantLE a b = true) := by
  intro l
  induction l with
  | nil =>
    intro _ _ _
    simp [sortInsert]
  | cons y ys ih =>
    intro hx hl hp
    rcases List.pairwise_cons.mp hp with ⟨hy, hys⟩
    rw [sortInsert]
    split
    · rename_i hxy
      refine List.pairwise_cons.mpr ⟨?_, hp⟩
      intro z hz
      rcases List.mem_cons.mp hz with rfl | hz
      · exact hxy
      · have hyz := hy z hz
        have hxyf : jsLt x.properties.mag y.properties.mag = false := by
          have := hxy
          simpa [significantLE] using this
        have hyzf : jsLt y.properties.mag z.properties.mag = false := by
          simpa [significantLE] using hyz
        have : jsLt x.properties.mag z.properties.mag = false :=
          jsLt_trans_neg _ _ _ (hl y (List.mem_cons_self y ys)) hxyf hyzf
        simp [significantLE, this]
    · rename_i hxy
      refine List.pairwise_cons.mpr
        ⟨?_, ih hx (fun e he => hl e (List.mem_cons_of_mem y he)) hys⟩
      intro z hz
      have hz' : z ∈ x :: ys := (sortInsert_perm significantLE x ys).mem_iff.mp hz
      rcases List.mem_cons.mp hz' with rfl | hz'
      · have h1 : jsLt z.properties.mag y.properties.mag = true := by
          rcases Bool.eq_false_or_eq_true (jsLt z.properties.mag y.properties.mag) with h | h
          · exact h
          · exact absurd (by simp [significantLE, h]) hxy
        have := jsLt_asymm _ _ h1
        simp [significantLE, this]
      · exact hy z hz'

/-- The stable sort of a list of events with non-NaN magnitudes is sorted
under the marker comparator. -/
theorem stableSort_pairwise :
    ∀ l : List Earthquake, (∀ e ∈ l, e.properties.mag ≠ JSNum.nan) →
    (stableSort significantLE l).Pairwise (fun a b => significantLE a b = true) := by
  intro l
  induction l with
  | nil =>
    intro _
    simp [stableSort]
  | cons x xs ih =>
    intro hl
    refine sortInsert_pairwise x (stableSort significantLE xs)
      (hl x (List.mem_cons_self x xs)) ?_
      (ih fun e he => hl e (List.mem_cons_of_mem x he))
    intro e he
    exact hl e (List.mem_cons_of_mem x ((stableSort_perm significantLE xs).mem_iff.mp he))

/-- Stability, insertion step, kept element: if `x` satisfies `p` and may
precede every `p`-element of `l`, it lands in front of all of them. -/
theorem filter_sortInsert_pos {α : Type} (le : α → α → Bool) (p : α → Bool) (x : α) :
    ∀ l : List α, p x = true → (∀ z ∈ l, p z = true → le x z = true) →
    (sortInsert le x l).filter p = x :: l.filter p := by
  intro l
  induction l with
  | nil =>
    intro hx _
    simp [sortInsert, hx]
  | cons y ys ih =>
    intro hx hall
    rw [sortInsert]
    split
    · simp [List.filter_cons, hx]
    · rename_i hxy
      have hy : p y = false := by
        rcases Bool.eq_false_or_eq_true (p y) with h | h
        · exact absurd (hall y (List.mem_cons_self y ys) h) hxy
        · exact h
      simp only [List.filter_cons, hy, cond_false, Bool.false_eq_true, if_false]
      exact ih hx fun z hz hpz => hall z (List.mem_cons_of_mem y hz) hpz

/-- Stability, insertion step, dropped element: inserting a non-`p` element
does not change the `p`-filtered list. -/
theorem filter_sortInsert_neg {α : Type} (le : α → α → Bool) (p : α → Bool) (x : α) :
    ∀ l : List α, p x = false →
    (sortInsert le x l).filter p = l.filter p := by
  intro l
  induction l with
  | nil =>
    intro hx
    simp [sortInsert, hx]
  | cons y ys ih =>
    intro hx
    rw [sortInsert]
    split
    · simp [List.filter_cons, hx]
    · rcases Bool.eq_false_or_eq_true (p y) with hy | hy <;>
        simp [List.filter_cons, hy, ih hx]

/-- Stability of the stable sort: filtering by any predicate whose elements
all tie under the precedence returns those elements in their original order. -/
theorem filter_stableSort {α : Type} (le : α → α → Bool) (p : α → Bool)
    (hties : ∀ a b : α, p a = true → p b = true → le a b = true) :
    ∀ l : List α, (stableSort le l).filter p = l.filter p := by
  intro l
  induction l with
  | nil => rfl
  | cons x xs ih =>
    show (sortInsert le x (stableSort le xs)).filter p = _
    rcases Bool.eq_false_or_eq_true (p x) with hx | hx
    · rw [filter_sortInsert_pos le p x _ hx fun z _ hpz => hties x z hx hpz, ih]
      simp [List.filter_cons, hx]
    · rw [filter_sortInsert_neg le p x _ hx, ih]
      simp [List.filter_cons, hx]

/-- An event that passes the `>= 2.5` magnitude test has a non-NaN magnitude. -/
theorem mag_ne_nan_of_ge (e : Earthquake)
    (h : jsGe e.properties.mag (JSNum.num 2.5) = true) :
    e.properties.mag ≠ JSNum.nan := by
  intro hn
  rw [hn] at h
  simp [jsGe] at h

/-- Claim C3: the Recent Significant Events list is the `>= 2.5`-filtered
events, stably sorted by magnitude descending (the sorted list is a
permutation of the filtered list, pairwise non-ascending in magnitude, and
events of any one magnitude appear in their original feed order), truncated
to at most five elements; on feed magnitudes [2.0, 6.0, 3.0, 9.0] it yields
the events with magnitudes [9.0, 6.0, 3.0]. -/
theorem significantEarthquakes_spec (filteredEarthquakes : List Earthquake) :
    significantEarthquakes filteredEarthquakes
      = (significantSorted filteredEarthquakes).take 5
    ∧ (significantSorted filteredEarthquakes).Perm
        (filteredEarthquakes.filter fun e => jsGe e.properties.mag (JSNum.num 2.5))
    ∧ (significantSorted filteredEarthquakes).Pairwise
        (fun a b => jsLt a.properties.mag b.properties.mag = false)
    ∧ (∀ q : ℚ,
        (significantSorted filteredEarthquakes).filter
            (fun e => decide (e.properties.mag = JSNum.num q))
          = (filteredEarthquakes.filter fun e =>
              jsGe e.properties.mag (JSNum.num 2.5)).filter
              (fun e => decide (e.properties.mag = JSNum.num q)))
    ∧ (significantEarthquakes filteredEarthquakes).length ≤ 5
    ∧ (significantEarthquakes exampleQuakes).map (fun e => e.properties.mag)
      = [JSNum.num 9, JSNum.num 6, JSNum.num 3] := by
  refine ⟨rfl, stableSort_perm _ _, ?_, ?_, ?_, ?_⟩
  · have hp := stableSort_pairwise
      (filteredEarthquakes.filter fun e => jsGe e.properties.mag (JSNum.num 2.5))
      (fun e he => mag_ne_nan_of_ge e (List.mem_filter.mp he).2)
    refine hp.imp ?_
    intro a b hab
    simpa [significantLE] using hab
  · intro q
    apply filter_stableSort
    intro a b ha hb
    have ha' := of_decide_eq_true ha
    have hb' := of_decide_eq_true hb
    simp [significantLE, jsLt, ha', hb']
  · exact List.length_take_le 5 _
  · norm_num [significantEarthquakes, significantSorted, exampleQuakes, mkQuake,
      stableSort, sortInsert, significantLE, jsGe, jsLt]

end EarthquakeViz
